import Mathlib

/-!
Verification development for the qt-creator snippet consisting of the
language-client diagnostic manager (`diagnosticmanager.cpp`) and the clangd
settings component (`clangdsettings.cpp`).

The C++ code is shallowly embedded: Qt value types become plain Lean data
(`QString` = `String`, `Utils::FilePath` = `String`, `QVariant` = `Variant`,
`Utils::Store` = an association list), stateful objects become explicit state
passing, and interactions with the host environment (settings store, document
model, spawned processes, environment variables) become explicit parameters.
-/

namespace QtEmbed

/-- `QVariant` restricted to the payload types the clangd settings code stores:
booleans, integers (including `qint64`), strings, string lists, and the
default-constructed null variant returned by `QMap::value` for a missing key. -/
inductive Variant where
  | vNull
  | vBool (b : Bool)
  | vInt (n : Int)
  | vString (s : String)
  | vStringList (l : List String)
  deriving DecidableEq, Repr

namespace Variant

/-- `QVariant::toBool`: a null variant and an unconvertible payload give
`false`; strings follow Qt's convention (`""`, `"0"`, `"false"` are false). -/
def toBool : Variant → Bool
  | vNull => false
  | vBool b => b
  | vInt n => n != 0
  | vString s => !(s = "" || s = "0" || s = "false")
  | vStringList _ => false

/-- `QVariant::toInt`. -/
def toInt : Variant → Int
  | vNull => 0
  | vBool b => if b then 1 else 0
  | vInt n => n
  | vString s => (s.toInt?).getD 0
  | vStringList _ => 0

/-- `QVariant::toLongLong` (the settings only ever store values that fit). -/
def toLongLong : Variant → Int := toInt

/-- `QVariant::toString` (`QString()` for payloads with no string form). -/
def toQString : Variant → String
  | vNull => ""
  | vBool b => if b then "true" else "false"
  | vInt n => ToString.toString n
  | vString s => s
  | vStringList _ => ""

/-- `QVariant::toStringList`. -/
def toQStringList : Variant → List String
  | vString s => [s]
  | vStringList l => l
  | _ => []

end Variant

/-- `Utils::Store` (a `QMap<Key, QVariant>`), embedded as an association list;
`insert` replaces an existing binding like `QMap::insert`. -/
def Store := List (String × Variant)

namespace Store

/-- The empty store. -/
def empty : Store := []

/-- `QMap::find` / `QMap::contains`: the binding of `k`, when present. -/
def find : Store → String → Option Variant
  | [], _ => none
  | (k', v) :: t, k => if k' = k then some v else find t k

/-- `QMap::insert`: bind `k` to `v`, replacing any existing binding. -/
def insert : Store → String → Variant → Store
  | [], k, v => [(k, v)]
  | (k', v') :: t, k, v => if k' = k then (k, v) :: t else (k', v') :: insert t k v

/-- `QMap::value(k, dflt)`: the binding of `k`, or `dflt` when absent. -/
def valueD (m : Store) (k : String) (dflt : Variant) : Variant :=
  (m.find k).getD dflt

/-- `QMap::value(k)`: the binding of `k`, or a null `QVariant` when absent. -/
def value (m : Store) (k : String) : Variant :=
  m.valueD k .vNull

end Store

end QtEmbed

namespace CppEditor

open QtEmbed

/-! ### Settings keys (`clangdsettings.cpp`, lines 34-53) -/

/-- `clangdSettingsKey`. -/
def clangdSettingsKey : String := "ClangdSettings"
/-- `useClangdKey`. -/
def useClangdKey : String := "UseClangdV7"
/-- `clangdPathKey`. -/
def clangdPathKey : String := "ClangdPath"
/-- `clangdIndexingKey`. -/
def clangdIndexingKey : String := "ClangdIndexing"
/-- `clangdProjectIndexPathKey`. -/
def clangdProjectIndexPathKey : String := "ClangdProjectIndexPath"
/-- `clangdSessionIndexPathKey`. -/
def clangdSessionIndexPathKey : String := "ClangdSessionIndexPath"
/-- `clangdIndexingPriorityKey`. -/
def clangdIndexingPriorityKey : String := "ClangdIndexingPriority"
/-- `clangdHeaderSourceSwitchModeKey`. -/
def clangdHeaderSourceSwitchModeKey : String := "ClangdHeaderSourceSwitchMode"
/-- `clangdCompletionRankingModelKey`. -/
def clangdCompletionRankingModelKey : String := "ClangdCompletionRankingModel"
/-- `clangdHeaderInsertionKey`. -/
def clangdHeaderInsertionKey : String := "ClangdHeaderInsertion"
/-- `clangdThreadLimitKey`. -/
def clangdThreadLimitKey : String := "ClangdThreadLimit"
/-- `clangdDocumentThresholdKey`. -/
def clangdDocumentThresholdKey : String := "ClangdDocumentThreshold"
/-- `clangdSizeThresholdEnabledKey`. -/
def clangdSizeThresholdEnabledKey : String := "ClangdSizeThresholdEnabled"
/-- `clangdSizeThresholdKey`. -/
def clangdSizeThresholdKey : String := "ClangdSizeThreshold"
/-- `useGlobalSettingsKey`. -/
def useGlobalSettingsKey : String := "useGlobalSettings"
/-- `clangdblockIndexingSettingsKey`. -/
def clangdblockIndexingSettingsKey : String := "blockIndexing"
/-- `sessionsWithOneClangdKey`. -/
def sessionsWithOneClangdKey : String := "SessionsWithOneClangd"
/-- `diagnosticConfigIdKey`. -/
def diagnosticConfigIdKey : String := "diagnosticConfigId"
/-- `checkedHardwareKey`. -/
def checkedHardwareKey : String := "checkedHardware"
/-- `completionResultsKey`. -/
def completionResultsKey : String := "completionResults"

/-- Modelled from the spec: the `ClangdSettings::IndexingPriority` enum class
is declared in `clangdsettings.h`, which is not part of the given source.  The
serialization code only needs that it is an `int`-backed enum whose `Off`
enumerator is distinguished, so the embedding keeps the raw `int`.  The
numeric values of the other enumerators are never load-bearing here. -/
def IndexingPriority := Int
  deriving DecidableEq, Repr

/-- `ClangdSettings::IndexingPriority::Off` (first enumerator, value 0). -/
def IndexingPriority.Off : IndexingPriority := (0 : Int)

/-- `Utils::Id`, embedded as its string form; `Id::toSetting` /
`Id::fromSetting` convert to and from a string `QVariant`. -/
def IdTag := String
  deriving DecidableEq, Repr

/-- `Utils::Id::toSetting`. -/
def IdTag.toSetting (i : IdTag) : Variant := .vString i

/-- `Utils::Id::fromSetting`. -/
def IdTag.fromSetting (v : Variant) : IdTag := v.toQString

/-- `initialClangDiagnosticConfigId` (line 32).  The value of the constant
`Constants::CPP_CLANG_DIAG_CONFIG_BUILDSYSTEM` lives outside the given source;
only its identity matters, so an opaque tag string stands in. -/
def initialClangDiagnosticConfigId : IdTag := "ClangDiagnosticConfig.BuildSystem"

/-- `ClangdSettings::defaultProjectIndexPathTemplate` (lines 107-110);
`QDir::toNativeSeparators` is the identity on Unix. -/
def defaultProjectIndexPathTemplate : String :=
  "%\x7bBuildConfig:BuildDirectory:FilePath\x7d/.qtc_clangd"

/-- `ClangdSettings::defaultSessionIndexPathTemplate` (lines 112-115). -/
def defaultSessionIndexPathTemplate : String :=
  "%\x7bIDE:UserResourcePath\x7d/.qtc_clangd/%\x7bSession:FileBaseName\x7d"

/-- The ambient state read by `fallbackClangdFilePath` (lines 24-30): the
global `g_defaultClangdFilePath`, whether it exists on disk, and the result of
searching the system `PATH` for `clangd`. -/
structure FallbackEnv where
  gDefaultClangdFilePath : String := ""
  gDefaultExists : Bool := false
  searchedClangd : String := ""
  deriving DecidableEq, Repr

/-- `fallbackClangdFilePath` (lines 25-30): the default clangd path when it
exists, otherwise the result of `searchInPath("clangd")`. -/
def fallbackClangdFilePath (e : FallbackEnv) : String :=
  if e.gDefaultExists then e.gDefaultClangdFilePath else e.searchedClangd

/-- `ClangdSettings::Data`.  The struct itself is declared in
`clangdsettings.h` (not part of the given source); its fields are exactly
those read and written by the given `clangdsettings.cpp`
(`toMap`/`fromMap`/`ClangdProjectSettings::settings`).  `FilePath` fields are
strings, enum-class fields are raw ints, and `ClangDiagnosticConfigs` is a
list of opaque config tags (the code only copies and compares it). -/
structure Data where
  useClangd : Bool := true
  executableFilePath : String := ""
  sessionsWithOneClangd : List String := []
  customDiagnosticConfigs : List String := []
  workerThreadLimit : Int := 0
  documentUpdateThreshold : Int := 500
  sizeThresholdInKb : Int := 1024
  sizeThresholdEnabled : Bool := false
  indexingPriority : IndexingPriority := (3 : Int)
  headerSourceSwitchMode : Int := (2 : Int)
  completionRankingModel : Int := (0 : Int)
  autoIncludeHeaders : Bool := false
  diagnosticConfigId : IdTag := initialClangDiagnosticConfigId
  haveCheckedHardwareReqirements : Bool := false
  completionResults : Int := 100
  projectIndexPathTemplate : String := defaultProjectIndexPathTemplate
  sessionIndexPathTemplate : String := defaultSessionIndexPathTemplate
  deriving DecidableEq, Repr

/-- `ClangdSettings::Data::defaultCompletionResults` (lines 483-489): the
value of the `QTC_CLANGD_COMPLETION_RESULTS` environment variable when it is
set to an integer (`envOverride = some n`), else 100. -/
def Data.defaultCompletionResults (envOverride : Option Int) : Int :=
  match envOverride with
  | some n => n
  | none => 100

/-- `ClangdSettings::Data::toMap` (lines 426-452).  `fbEnv` supplies the
ambient state read by the call to `fallbackClangdFilePath()`. -/
def Data.toMap (fbEnv : FallbackEnv) (d : Data) : Store :=
  (((((((((((((((Store.empty.insert useClangdKey (.vBool d.useClangd)).insert
    clangdPathKey (.vString (if d.executableFilePath ≠ fallbackClangdFilePath fbEnv then
      d.executableFilePath else ""))).insert
    clangdIndexingKey (.vBool (d.indexingPriority ≠ IndexingPriority.Off))).insert
    clangdIndexingPriorityKey (.vInt d.indexingPriority)).insert
    clangdProjectIndexPathKey (.vString d.projectIndexPathTemplate)).insert
    clangdSessionIndexPathKey (.vString d.sessionIndexPathTemplate)).insert
    clangdHeaderSourceSwitchModeKey (.vInt d.headerSourceSwitchMode)).insert
    clangdCompletionRankingModelKey (.vInt d.completionRankingModel)).insert
    clangdHeaderInsertionKey (.vBool d.autoIncludeHeaders)).insert
    clangdThreadLimitKey (.vInt d.workerThreadLimit)).insert
    clangdDocumentThresholdKey (.vInt d.documentUpdateThreshold)).insert
    clangdSizeThresholdEnabledKey (.vBool d.sizeThresholdEnabled)).insert
    clangdSizeThresholdKey (.vInt d.sizeThresholdInKb)).insert
    sessionsWithOneClangdKey (.vStringList d.sessionsWithOneClangd)).insert
    diagnosticConfigIdKey d.diagnosticConfigId.toSetting).insert
    checkedHardwareKey (.vBool d.haveCheckedHardwareReqirements) |>.insert
    completionResultsKey (.vInt d.completionResults)

/-- `ClangdSettings::Data::fromMap` (lines 454-481), a mutating member
function embedded as a function of the receiver `d`.  `envOverride` supplies
the environment variable read by `defaultCompletionResults()`. -/
def Data.fromMap (d : Data) (envOverride : Option Int) (map : Store) : Data :=
  { d with
    useClangd := (map.valueD useClangdKey (.vBool true)).toBool
    executableFilePath := (map.value clangdPathKey).toQString
    indexingPriority :=
      let p : IndexingPriority :=
        (map.valueD clangdIndexingPriorityKey (.vInt d.indexingPriority)).toInt
      match map.find clangdIndexingKey with
      | some v => if v.toBool then p else IndexingPriority.Off
      | none => p
    projectIndexPathTemplate :=
      (map.valueD clangdProjectIndexPathKey (.vString defaultProjectIndexPathTemplate)).toQString
    sessionIndexPathTemplate :=
      (map.valueD clangdSessionIndexPathKey (.vString defaultSessionIndexPathTemplate)).toQString
    headerSourceSwitchMode :=
      (map.valueD clangdHeaderSourceSwitchModeKey (.vInt d.headerSourceSwitchMode)).toInt
    completionRankingModel :=
      (map.valueD clangdCompletionRankingModelKey (.vInt d.completionRankingModel)).toInt
    autoIncludeHeaders := (map.valueD clangdHeaderInsertionKey (.vBool false)).toBool
    workerThreadLimit := (map.valueD clangdThreadLimitKey (.vInt 0)).toInt
    documentUpdateThreshold := (map.valueD clangdDocumentThresholdKey (.vInt 500)).toInt
    sizeThresholdEnabled := (map.valueD clangdSizeThresholdEnabledKey (.vBool false)).toBool
    sizeThresholdInKb := (map.valueD clangdSizeThresholdKey (.vInt 1024)).toLongLong
    sessionsWithOneClangd := (map.value sessionsWithOneClangdKey).toQStringList
    diagnosticConfigId :=
      IdTag.fromSetting
        (map.valueD diagnosticConfigIdKey initialClangDiagnosticConfigId.toSetting)
    haveCheckedHardwareReqirements := (map.valueD checkedHardwareKey (.vBool false)).toBool
    completionResults :=
      (map.valueD completionResultsKey (.vInt (Data.defaultCompletionResults envOverride))).toInt }

/-! ### `getClangHeadersPathFromClang` (`clangdsettings.cpp`, lines 235-254) -/

/-- `Utils::FilePath::pathAppended`. -/
def FilePathAppended (p s : String) : String := p ++ "/" ++ s

/-- `Utils::FilePath::absolutePath`: the enclosing directory (everything
before the final path separator). -/
def FilePathAbsolutePath (p : String) : String :=
  String.intercalate "/" ((p.splitOn "/").dropLast)

/-- The ambient state consumed by `getClangHeadersPathFromClang`: which paths
exist on disk, the raw stdout of the spawned `clang -print-resource-dir`
process when it finished (`none` when `waitForFinished()` failed), and the
platform executable suffix appended by `withExecutableSuffix` (empty on
Unix, `".exe"` on Windows). -/
structure ProcessEnv where
  pathExists : String → Bool
  clangRawStdOut : Option String
  exeSuffix : String := ""

/-- The clang executable probed by `getClangHeadersPathFromClang`:
`clangdFilePath.absolutePath().pathAppended("clang").withExecutableSuffix()`. -/
def clangSiblingPath (env : ProcessEnv) (clangdFilePath : String) : String :=
  FilePathAppended (FilePathAbsolutePath clangdFilePath) "clang" ++ env.exeSuffix

/-- An ASCII whitespace character as `QByteArray::trimmed` treats them. -/
def isQtSpace (c : Char) : Bool :=
  c = ' ' || c = '\t' || c = '\n' || c = '\r' || c = '\x0b' || c = '\x0c'

/-- `QByteArray::trimmed`: strip leading and trailing whitespace. -/
def qtTrimmed (s : String) : String :=
  String.mk (((s.data.dropWhile isQtSpace).reverse.dropWhile isQtSpace).reverse)

/-- `getClangHeadersPathFromClang` (lines 235-254).  `FilePath::fromUserInput`
on the already-trimmed process output is the identity in this embedding; an
empty string is the empty `FilePath`. -/
def getClangHeadersPathFromClang (env : ProcessEnv) (clangdFilePath : String) : String :=
  let clangFilePath := clangSiblingPath env clangdFilePath
  if !env.pathExists clangFilePath then ""
  else
    match env.clangRawStdOut with
    | none => ""
    | some rawOut =>
      let resourceDir := qtTrimmed rawOut
      if resourceDir = "" || !env.pathExists resourceDir then ""
      else
        let includeDir := FilePathAppended resourceDir "include"
        if !env.pathExists includeDir then "" else includeDir

/-! ### `ClangdProjectSettings` (`clangdsettings.cpp`, lines 341-424) -/

/-- The per-project state of `ClangdProjectSettings`: `m_useGlobalSettings`,
`m_blockIndexing` and `m_customSettings`. -/
structure ClangdProjectSettings where
  m_useGlobalSettings : Bool := true
  m_blockIndexing : Bool := false
  m_customSettings : Data := {}
  deriving DecidableEq, Repr

/-- `ClangdProjectSettings::settings` (lines 346-361).  `globalData` is
`ClangdSettings::instance().data()`. -/
def ClangdProjectSettings.settings (ps : ClangdProjectSettings) (globalData : Data) : Data :=
  let data :=
    if ps.m_useGlobalSettings then globalData
    else
      { ps.m_customSettings with
        sessionsWithOneClangd := globalData.sessionsWithOneClangd
        customDiagnosticConfigs := globalData.customDiagnosticConfigs }
  if ps.m_blockIndexing then { data with indexingPriority := IndexingPriority.Off } else data

end CppEditor

namespace LanguageClient

open QtEmbed

/-! ### LSP data model used by `diagnosticmanager.cpp`

`LanguageServerProtocol::Position`, `Range`, `DiagnosticSeverity` and
`Diagnostic` are defined by the language-server-protocol library, outside the
given source; the embedding keeps the fields the diagnostic manager reads. -/

/-- An LSP text position (zero-based line and character). -/
structure Position where
  line : Int
  character : Int
  deriving DecidableEq, Repr

/-- `Position::operator<`: lexicographic on (line, character). -/
def Position.lt (a b : Position) : Bool :=
  a.line < b.line || (a.line = b.line && a.character < b.character)

/-- An LSP range with start and end positions. -/
structure Range where
  start : Position
  end_ : Position
  deriving DecidableEq, Repr

/-- Modelled from the spec: `LanguageServerProtocol::Range::overlaps` is not
part of the given source; two ranges overlap when neither ends strictly
before the other starts. -/
def Range.overlaps (r other : Range) : Bool :=
  !(Position.lt r.end_ other.start || Position.lt other.end_ r.start)

/-- `LanguageServerProtocol::DiagnosticSeverity`. -/
inductive DiagnosticSeverity where
  | Error
  | Warning
  | Information
  | Hint
  deriving DecidableEq, Repr

/-- An LSP diagnostic, restricted to the fields the diagnostic manager reads:
its range, optional severity and message. -/
structure Diagnostic where
  range : Range
  severity : Option DiagnosticSeverity := none
  message : String := ""
  deriving DecidableEq, Repr

/-! ### Host-framework types used by `diagnosticmanager.cpp` -/

/-- The theme colors a diagnostic text mark can take. -/
inductive ThemeColor where
  | CodeModel_Error_TextMarkColor
  | CodeModel_Warning_TextMarkColor
  | IconsDisabledColor
  deriving DecidableEq, Repr

/-- The icons a diagnostic text mark can take. -/
inductive MarkIcon where
  | CODEMODEL_ERROR
  | CODEMODEL_WARNING
  deriving DecidableEq, Repr

/-- `C_ERROR` / `C_WARNING` from `texteditor/textstyles.h`. -/
inductive TextStyle where
  | C_ERROR
  | C_WARNING
  deriving DecidableEq, Repr

/-- The observable state of a `LanguageClient::TextMark` after construction:
the gutter line, the mark category (client name and id), the line annotation,
tooltip, color and icon set by the constructor, and the text its clipboard
action copies. -/
structure TextMark where
  line : Int
  categoryDisplayName : String
  categoryId : String
  lineAnnotationText : String
  toolTip : String
  color : ThemeColor
  icon : MarkIcon
  clipboardActionText : String
  deriving DecidableEq, Repr

/-- A `QTextCursor` as used here: anchor and position in the document, plus
the null flag (a cursor constructed over a document is never null). -/
structure Cursor where
  anchor : Int
  position : Int
  isNull : Bool
  deriving DecidableEq, Repr

/-- A character format as produced by `FontSettings::toTextCharFormat`,
reduced to the text style that determined it. -/
structure CharFormat where
  textStyle : TextStyle
  deriving DecidableEq, Repr

/-- `QTextEdit::ExtraSelection`. -/
structure ExtraSelection where
  cursor : Cursor
  format : CharFormat
  deriving DecidableEq, Repr

/-- A `QTextDocument`, reduced to what the diagnostic manager needs of it:
`Position::toPositionInDocument` (a library function outside the given
source), i.e. the mapping from LSP positions to character offsets. -/
structure TextDocument where
  posInDocument : Position → Int

/-- The `Client` as seen by the diagnostic manager: its name and id (the mark
category), the current document version per file, and project membership. -/
structure Client where
  name : String
  id : String
  documentVersion : String → Int
  fileBelongsToProject : String → Bool

/-- The document model: which file paths currently have an open
`TextDocument` (`TextDocument::textDocumentForFilePath`). -/
structure DocModel where
  docs : String → Option TextDocument

/-- `VersionedDiagnostics` (`diagnosticmanager.cpp`, lines 49-53). -/
structure VersionedDiagnostics where
  version : Option Int := none
  diagnostics : List Diagnostic := []
  deriving DecidableEq, Repr

/-- `Marks` (lines 55-61), without the owning-pointer cleanup. -/
structure Marks where
  enabled : Bool := true
  marks : List TextMark := []
  deriving DecidableEq, Repr

/-- The private state of `DiagnosticManager`: `m_diagnostics` and `m_marks`
(both `QMap`s keyed by file path, embedded as functions to `Option`). -/
structure DMState where
  m_diagnostics : String → Option VersionedDiagnostics
  m_marks : String → Option Marks

/-- The empty diagnostic-manager state. -/
def DMState.empty : DMState := ⟨fun _ => none, fun _ => none⟩

/-- `DiagnosticManager::filteredDiagnostics` (lines 103-106). -/
def filteredDiagnostics (diagnostics : List Diagnostic) : List Diagnostic :=
  diagnostics

/-- The `LanguageClient::TextMark` constructor (lines 34-46) combined with the
action provider installed by `DiagnosticManager::createTextMark`
(lines 150-167): line is the start line + 1, annotation and tooltip are the
diagnostic's message, color and icon depend on whether the severity (Hint
when absent) is Error, and the clipboard action copies the message.  The
`isProjectFile` argument is accepted and ignored, as in the source. -/
def createTextMark (client : Client) (diag : Diagnostic) (_isProjectFile : Bool) : TextMark :=
  let isError := diag.severity.getD .Hint = .Error
  { line := diag.range.start.line + 1
    categoryDisplayName := client.name
    categoryId := client.id
    lineAnnotationText := diag.message
    toolTip := diag.message
    color := if isError then .CodeModel_Error_TextMarkColor else .CodeModel_Warning_TextMarkColor
    icon := if isError then .CODEMODEL_ERROR else .CODEMODEL_WARNING
    clipboardActionText := diag.message }

/-- `DiagnosticManager::createDiagnosticSelection` (lines 169-182): a cursor
anchored at the range start, extended to the range end, with the error style
exactly when the severity (Warning when absent) is Error. -/
def createDiagnosticSelection (diag : Diagnostic) (textDocument : TextDocument) :
    ExtraSelection :=
  let severity := diag.severity.getD .Warning
  { cursor :=
      { anchor := textDocument.posInDocument diag.range.start
        position := textDocument.posInDocument diag.range.end_
        isNull := false }
    format := { textStyle := if severity = .Error then .C_ERROR else .C_WARNING } }

/-- The observable outcome of a diagnostic-manager operation: the new private
state, the extra-selection list pushed to every editor of the file's document
(`none` when no document is open, so no editor was touched), the marks created
during the call, and whether `textMarkCreated` was emitted. -/
structure DMResult where
  state : DMState
  selectionsSet : Option (List ExtraSelection)
  marksCreated : List TextMark
  emitted : Bool

/-- `DiagnosticManager::hideDiagnostics` (lines 94-101): clear the extra
selections of every editor of the file's document (when one is open) and drop
the file's marks. -/
def hideDiagnostics (docModel : DocModel) (st : DMState) (filePath : String) : DMResult :=
  { state :=
      { st with m_marks := fun p => if p = filePath then none else st.m_marks p }
    selectionsSet := (docModel.docs filePath).map (fun _ => [])
    marksCreated := []
    emitted := false }

/-- `DiagnosticManager::setDiagnostics` (lines 86-92): hide the file's
diagnostics, then store the filtered list with the given version. -/
def setDiagnostics (docModel : DocModel) (st : DMState) (filePath : String)
    (diagnostics : List Diagnostic) (version : Option Int) : DMResult :=
  let h := hideDiagnostics docModel st filePath
  { h with
    state :=
      { h.state with
        m_diagnostics := fun p =>
          if p = filePath then some ⟨version, filteredDiagnostics diagnostics⟩
          else h.state.m_diagnostics p } }

/-- `DiagnosticManager::showDiagnostics` (lines 119-143).  When no document is
open for the path nothing happens; otherwise, when the stored version (the
given one when absent) matches and the stored list is non-empty, a selection
and a mark are built per diagnostic (selections with a null cursor are
skipped, marks are appended to the file's `Marks` entry, and `textMarkCreated`
is emitted when that entry ends up non-empty); in every case the resulting
selection list is pushed to all editors of the document. -/
def showDiagnostics (docModel : DocModel) (client : Client) (st : DMState)
    (filePath : String) (version : Int) : DMResult :=
  match docModel.docs filePath with
  | none => { state := st, selectionsSet := none, marksCreated := [], emitted := false }
  | some doc =>
    let versionedDiagnostics := (st.m_diagnostics filePath).getD {}
    if versionedDiagnostics.version.getD version = version
        ∧ versionedDiagnostics.diagnostics ≠ [] then
      let isProjectFile := client.fileBelongsToProject filePath
      let extraSelections :=
        (versionedDiagnostics.diagnostics.map (createDiagnosticSelection · doc)).filter
          (fun s => !s.cursor.isNull)
      let created := versionedDiagnostics.diagnostics.map (createTextMark client · isProjectFile)
      let oldMarks := (st.m_marks filePath).getD {}
      let newMarks := { oldMarks with marks := oldMarks.marks ++ created }
      { state := { st with m_marks := fun p => if p = filePath then some newMarks else st.m_marks p }
        selectionsSet := some extraSelections
        marksCreated := created
        emitted := newMarks.marks ≠ [] }
    else
      { state := st, selectionsSet := some [], marksCreated := [], emitted := false }

/-- `DiagnosticManager::diagnosticsAt` (lines 207-219).  `cursorRange` is
`Range(cursor)`, the LSP range of the given text cursor. -/
def diagnosticsAt (client : Client) (st : DMState) (filePath : String)
    (cursorRange : Range) : List Diagnostic :=
  let documentRevision := client.documentVersion filePath
  match st.m_diagnostics filePath with
  | none => []
  | some entry =>
    if documentRevision ≠ entry.version.getD documentRevision then []
    else entry.diagnostics.filter (fun diagnostic => diagnostic.range.overlaps cursorRange)

end LanguageClient

/-! ## Theorems -/

namespace QtEmbed

/-- Rewriting lemma: inserting into the empty store. -/
theorem Store.insert_nil (k : String) (v : Variant) :
    Store.insert [] k v = [(k, v)] := rfl

/-- Rewriting lemma: inserting under a different head key. -/
theorem Store.insert_cons_ne (k0 k : String) (v0 v : Variant) (t : Store) (h : k0 ≠ k) :
    Store.insert ((k0, v0) :: t) k v = (k0, v0) :: Store.insert t k v := by
  simp [Store.insert, h]

/-- Rewriting lemma: looking up in the empty store. -/
theorem Store.find_nil (k : String) : Store.find [] k = none := rfl

/-- Rewriting lemma: looking up the head key. -/
theorem Store.find_cons_eq (k : String) (v0 : Variant) (t : Store) :
    Store.find ((k, v0) :: t) k = some v0 := by
  simp [Store.find]

/-- Rewriting lemma: looking up past a different head key. -/
theorem Store.find_cons_ne (k0 k : String) (v0 : Variant) (t : Store) (h : k0 ≠ k) :
    Store.find ((k0, v0) :: t) k = Store.find t k := by
  simp [Store.find, h]

end QtEmbed

namespace CppEditor

open QtEmbed

set_option maxHeartbeats 1000000 in
/-- C1 (amended): decoding with `Data::fromMap` the store produced by
`Data::toMap` applied to `d` restores every serialized field of `d`, with two
exceptions forced by the code: `executableFilePath` comes back as the empty
path whenever it equals the fallback clangd path (because `toMap` stores an
empty string in that case and `fromMap` does not re-resolve it), and
`customDiagnosticConfigs` is not serialized at all, so the decoding target's
value survives.  In particular the round trip is the identity exactly when
`executableFilePath` differs from the fallback path (or both are empty) and
the decoding starts from a `Data` with the same `customDiagnosticConfigs`. -/
theorem fromMap_toMap_characterization (init d : Data) (fbEnv : FallbackEnv)
    (envOverride : Option Int) :
    Data.fromMap init envOverride (Data.toMap fbEnv d) =
      { d with
        executableFilePath :=
          if d.executableFilePath = fallbackClangdFilePath fbEnv then ""
          else d.executableFilePath
        customDiagnosticConfigs := init.customDiagnosticConfigs } := by
  rcases d with ⟨uc, efp, swoc, cdc, wtl, dut, stk, ste, ip, hssm, crm, aih, dci, hchr, cr, pipt, sipt⟩
  simp only [ne_eq]
  simp [Data.toMap, Data.fromMap, Store.empty,
    Store.valueD, Store.value,
    Store.insert_nil, Store.insert_cons_ne, Store.find_nil, Store.find_cons_eq,
    Store.find_cons_ne, Option.getD_some, Option.getD_none,
    Variant.toBool, Variant.toInt, Variant.toLongLong, Variant.toQString,
    Variant.toQStringList, IdTag.toSetting, IdTag.fromSetting,
    useClangdKey, clangdPathKey, clangdIndexingKey, clangdIndexingPriorityKey,
    clangdProjectIndexPathKey, clangdSessionIndexPathKey, clangdHeaderSourceSwitchModeKey,
    clangdCompletionRankingModelKey, clangdHeaderInsertionKey, clangdThreadLimitKey,
    clangdDocumentThresholdKey, clangdSizeThresholdEnabledKey, clangdSizeThresholdKey,
    sessionsWithOneClangdKey, diagnosticConfigIdKey, checkedHardwareKey, completionResultsKey]
  by_cases hip : ip = IndexingPriority.Off <;>
    simp [hip, ite_not, ne_eq]

/-- C1 (counterexample): with the fallback clangd path resolving to `"clangd"`
and `d` the default settings with `executableFilePath = "clangd"`, the round
trip `fromMap ∘ toMap` does not give back `d`: the executable path is decoded
as the empty path. -/
theorem fromMap_toMap_not_identity_on_fallback :
    Data.fromMap {} none
        (Data.toMap { searchedClangd := "clangd" } { executableFilePath := "clangd" })
      ≠ ({ executableFilePath := "clangd" } : Data) := by
  decide

end CppEditor

namespace CppEditor

open QtEmbed

/-- C9: `Data::fromMap` assigns the stated default for every missing key
(`useClangd` true, `autoIncludeHeaders` false, `workerThreadLimit` 0,
`documentUpdateThreshold` 500, `sizeThresholdEnabled` false,
`sizeThresholdInKb` 1024, `haveCheckedHardwareReqirements` false,
`completionResults` 100 absent an environment override), and when the stored
indexing flag is present and false, the resulting `indexingPriority` is `Off`
regardless of the stored priority value. -/
theorem fromMap_defaults (init : Data) (envOverride : Option Int) (map : Store) :
    (map.find useClangdKey = none → (Data.fromMap init envOverride map).useClangd = true)
    ∧ (map.find clangdHeaderInsertionKey = none →
        (Data.fromMap init envOverride map).autoIncludeHeaders = false)
    ∧ (map.find clangdThreadLimitKey = none →
        (Data.fromMap init envOverride map).workerThreadLimit = 0)
    ∧ (map.find clangdDocumentThresholdKey = none →
        (Data.fromMap init envOverride map).documentUpdateThreshold = 500)
    ∧ (map.find clangdSizeThresholdEnabledKey = none →
        (Data.fromMap init envOverride map).sizeThresholdEnabled = false)
    ∧ (map.find clangdSizeThresholdKey = none →
        (Data.fromMap init envOverride map).sizeThresholdInKb = 1024)
    ∧ (map.find checkedHardwareKey = none →
        (Data.fromMap init envOverride map).haveCheckedHardwareReqirements = false)
    ∧ (map.find completionResultsKey = none → envOverride = none →
        (Data.fromMap init envOverride map).completionResults = 100)
    ∧ (∀ v, map.find clangdIndexingKey = some v → v.toBool = false →
        (Data.fromMap init envOverride map).indexingPriority = IndexingPriority.Off) := by
  refine ⟨fun h => ?_, fun h => ?_, fun h => ?_, fun h => ?_, fun h => ?_, fun h => ?_,
    fun h => ?_, fun h he => ?_, fun v h hv => ?_⟩ <;>
    simp_all [Data.fromMap, Store.valueD, Store.value, Variant.toBool, Variant.toInt,
      Variant.toLongLong, Data.defaultCompletionResults]

theorem fromMap_defaults_witness :
    (Data.fromMap {} none Store.empty).useClangd = true
    ∧ (Data.fromMap {} none
        [(clangdIndexingKey, .vBool false),
         (clangdIndexingPriorityKey, .vInt 2)]).indexingPriority = IndexingPriority.Off :=
  ⟨(fromMap_defaults {} none Store.empty).1 rfl,
   (fromMap_defaults {} none
      [(clangdIndexingKey, .vBool false), (clangdIndexingPriorityKey, .vInt 2)]).2.2.2.2.2.2.2.2
      (.vBool false) rfl rfl⟩

/-- C10: for a `ClangdProjectSettings` that does not use global settings,
`settings()` returns the project's custom settings except that
`sessionsWithOneClangd` and `customDiagnosticConfigs` are always taken from
the global settings data, and whenever indexing is blocked the returned
`indexingPriority` is `Off`. -/
theorem projectSettings_custom (ps : ClangdProjectSettings) (globalData : Data)
    (h : ps.m_useGlobalSettings = false) :
    (ps.settings globalData).sessionsWithOneClangd = globalData.sessionsWithOneClangd
    ∧ (ps.settings globalData).customDiagnosticConfigs = globalData.customDiagnosticConfigs
    ∧ (ps.m_blockIndexing = true →
        (ps.settings globalData).indexingPriority = IndexingPriority.Off)
    ∧ (ps.m_blockIndexing = false →
        (ps.settings globalData).indexingPriority = ps.m_customSettings.indexingPriority)
    ∧ (ps.settings globalData).useClangd = ps.m_customSettings.useClangd
    ∧ (ps.settings globalData).executableFilePath = ps.m_customSettings.executableFilePath
    ∧ (ps.settings globalData).workerThreadLimit = ps.m_customSettings.workerThreadLimit
    ∧ (ps.settings globalData).documentUpdateThreshold
        = ps.m_customSettings.documentUpdateThreshold
    ∧ (ps.settings globalData).sizeThresholdInKb = ps.m_customSettings.sizeThresholdInKb
    ∧ (ps.settings globalData).sizeThresholdEnabled = ps.m_customSettings.sizeThresholdEnabled
    ∧ (ps.settings globalData).headerSourceSwitchMode
        = ps.m_customSettings.headerSourceSwitchMode
    ∧ (ps.settings globalData).completionRankingModel
        = ps.m_customSettings.completionRankingModel
    ∧ (ps.settings globalData).autoIncludeHeaders = ps.m_customSettings.autoIncludeHeaders
    ∧ (ps.settings globalData).diagnosticConfigId = ps.m_customSettings.diagnosticConfigId
    ∧ (ps.settings globalData).haveCheckedHardwareReqirements
        = ps.m_customSettings.haveCheckedHardwareReqirements
    ∧ (ps.settings globalData).completionResults = ps.m_customSettings.completionResults
    ∧ (ps.settings globalData).projectIndexPathTemplate
        = ps.m_customSettings.projectIndexPathTemplate
    ∧ (ps.settings globalData).sessionIndexPathTemplate
        = ps.m_customSettings.sessionIndexPathTemplate := by
  cases hb : ps.m_blockIndexing <;>
    simp [ClangdProjectSettings.settings, h, hb]

theorem projectSettings_custom_witness :
    (ClangdProjectSettings.settings
        { m_useGlobalSettings := false, m_blockIndexing := true, m_customSettings := {} }
        { sessionsWithOneClangd := ["s"] }).indexingPriority = IndexingPriority.Off
    ∧ (ClangdProjectSettings.settings
        { m_useGlobalSettings := false, m_blockIndexing := true, m_customSettings := {} }
        { sessionsWithOneClangd := ["s"] }).sessionsWithOneClangd = ["s"] :=
  ⟨(projectSettings_custom
      { m_useGlobalSettings := false, m_blockIndexing := true, m_customSettings := {} }
      { sessionsWithOneClangd := ["s"] } rfl).2.2.1 rfl,
   (projectSettings_custom
      { m_useGlobalSettings := false, m_blockIndexing := true, m_customSettings := {} }
      { sessionsWithOneClangd := ["s"] } rfl).1⟩

/-- C8: `getClangHeadersPathFromClang` returns the empty path when the clang
executable next to the given clangd path does not exist, when the spawned
clang process does not finish, when the resource directory it prints is empty
or does not exist, or when that directory's `include` subdirectory does not
exist; otherwise it returns the resource directory's `include` subdirectory. -/
theorem getClangHeadersPathFromClang_spec (env : ProcessEnv) (clangdFilePath : String) :
    (env.pathExists (clangSiblingPath env clangdFilePath) = false →
      getClangHeadersPathFromClang env clangdFilePath = "")
    ∧ (env.clangRawStdOut = none → getClangHeadersPathFromClang env clangdFilePath = "")
    ∧ (∀ rawOut, env.clangRawStdOut = some rawOut →
        (qtTrimmed rawOut = "" → getClangHeadersPathFromClang env clangdFilePath = "")
        ∧ (env.pathExists (qtTrimmed rawOut) = false →
            getClangHeadersPathFromClang env clangdFilePath = "")
        ∧ (env.pathExists (FilePathAppended (qtTrimmed rawOut) "include") = false →
            getClangHeadersPathFromClang env clangdFilePath = "")
        ∧ (env.pathExists (clangSiblingPath env clangdFilePath) = true →
           qtTrimmed rawOut ≠ "" →
           env.pathExists (qtTrimmed rawOut) = true →
           env.pathExists (FilePathAppended (qtTrimmed rawOut) "include") = true →
            getClangHeadersPathFromClang env clangdFilePath
              = FilePathAppended (qtTrimmed rawOut) "include")) := by
  refine ⟨fun h => ?_, fun h => ?_, fun rawOut h =>
    ⟨fun h1 => ?_, fun h2 => ?_, fun h3 => ?_, fun h4 h5 h6 h7 => ?_⟩⟩ <;>
    cases hc : env.pathExists (clangSiblingPath env clangdFilePath) <;>
    simp_all [getClangHeadersPathFromClang]

theorem getClangHeadersPathFromClang_spec_witness :
    getClangHeadersPathFromClang
        ⟨fun _ => true, some " /res ", ""⟩ "/usr/bin/clangd" = "/res/include" :=
  ((getClangHeadersPathFromClang_spec ⟨fun _ => true, some " /res ", ""⟩
      "/usr/bin/clangd").2.2 " /res " rfl |>.2.2.2 rfl (by decide) rfl rfl).trans (by decide)

end CppEditor

namespace LanguageClient

/-- C2: the gutter text mark constructed by `DiagnosticManager::createTextMark`
has the error color and error icon exactly when the diagnostic's severity
(taken as Hint when absent) equals Error, and otherwise has the warning color
and warning icon; its line annotation and tooltip are the diagnostic's
message. -/
theorem createTextMark_spec (client : Client) (diag : Diagnostic) (isProjectFile : Bool) :
    (createTextMark client diag isProjectFile).lineAnnotationText = diag.message
    ∧ (createTextMark client diag isProjectFile).toolTip = diag.message
    ∧ (((createTextMark client diag isProjectFile).color = .CodeModel_Error_TextMarkColor
        ∧ (createTextMark client diag isProjectFile).icon = .CODEMODEL_ERROR)
        ↔ diag.severity.getD .Hint = .Error)
    ∧ (((createTextMark client diag isProjectFile).color = .CodeModel_Warning_TextMarkColor
        ∧ (createTextMark client diag isProjectFile).icon = .CODEMODEL_WARNING)
        ↔ diag.severity.getD .Hint ≠ .Error) := by
  by_cases h : diag.severity.getD .Hint = .Error <;>
    simp [createTextMark, h]

/-- C3: the extra selection produced by
`DiagnosticManager::createDiagnosticSelection` spans from the position of the
diagnostic range's start to the position of its end and uses the error text
style exactly when the severity (taken as Warning when absent) equals Error,
and otherwise the warning text style. -/
theorem createDiagnosticSelection_spec (diag : Diagnostic) (doc : TextDocument) :
    (createDiagnosticSelection diag doc).cursor.anchor = doc.posInDocument diag.range.start
    ∧ (createDiagnosticSelection diag doc).cursor.position = doc.posInDocument diag.range.end_
    ∧ ((createDiagnosticSelection diag doc).format.textStyle = .C_ERROR
        ↔ diag.severity.getD .Warning = .Error)
    ∧ ((createDiagnosticSelection diag doc).format.textStyle = .C_WARNING
        ↔ diag.severity.getD .Warning ≠ .Error) := by
  by_cases h : diag.severity.getD .Warning = .Error <;>
    simp [createDiagnosticSelection, h]

/-- Selections built by `createDiagnosticSelection` never have a null cursor,
so the null-cursor filter in `showDiagnostics` keeps all of them. -/
theorem filter_notNull_map_selection (ds : List Diagnostic) (doc : TextDocument) :
    ((ds.map (createDiagnosticSelection · doc)).filter (fun s => !s.cursor.isNull))
      = ds.map (createDiagnosticSelection · doc) := by
  induction ds with
  | nil => rfl
  | cons d t ih => simp [createDiagnosticSelection, ih]

/-- C5: after `DiagnosticManager::setDiagnostics(filePath, diagnostics,
version)`, the stored entry for `filePath` holds exactly the given diagnostic
list, unfiltered (`filteredDiagnostics` is the identity), together with the
given version, and any marks previously stored for `filePath` are gone. -/
theorem setDiagnostics_spec (docModel : DocModel) (st : DMState) (filePath : String)
    (diagnostics : List Diagnostic) (version : Option Int) :
    (setDiagnostics docModel st filePath diagnostics version).state.m_diagnostics filePath
      = some ⟨version, diagnostics⟩
    ∧ filteredDiagnostics diagnostics = diagnostics
    ∧ (setDiagnostics docModel st filePath diagnostics version).state.m_marks filePath
      = none := by
  simp [setDiagnostics, hideDiagnostics, filteredDiagnostics]

/-- C7: for distinct file paths `p` and `q`, `setDiagnostics` applied to `p`
and `hideDiagnostics` applied to `p` leave the stored diagnostics entry and
the stored marks of `q` unchanged. -/
theorem setDiagnostics_hideDiagnostics_frame (docModel : DocModel) (st : DMState)
    (p q : String) (diagnostics : List Diagnostic) (version : Option Int) (h : p ≠ q) :
    (setDiagnostics docModel st p diagnostics version).state.m_diagnostics q
      = st.m_diagnostics q
    ∧ (setDiagnostics docModel st p diagnostics version).state.m_marks q = st.m_marks q
    ∧ (hideDiagnostics docModel st p).state.m_diagnostics q = st.m_diagnostics q
    ∧ (hideDiagnostics docModel st p).state.m_marks q = st.m_marks q := by
  have h' : q ≠ p := fun hq => h hq.symm
  simp [setDiagnostics, hideDiagnostics, h']

theorem setDiagnostics_hideDiagnostics_frame_witness :
    (setDiagnostics ⟨fun _ => none⟩ DMState.empty "p" [] none).state.m_diagnostics "q" = none :=
  (setDiagnostics_hideDiagnostics_frame ⟨fun _ => none⟩ DMState.empty "p" "q" [] none
    (by decide)).1

/-- C4: `DiagnosticManager::showDiagnostics` installs highlight selections and
creates gutter marks only when the stored version for the path (the given one
when absent) equals the given version and the stored list is non-empty; when a
document is open but that condition fails it pushes the empty selection list
to the file's editors and creates no marks (when no document is open there are
no editors and nothing happens); and `textMarkCreated` is emitted only when at
least one mark was created in the call. -/
theorem showDiagnostics_spec (docModel : DocModel) (client : Client) (st : DMState)
    (filePath : String) (version : Int) :
    (docModel.docs filePath = none →
      (showDiagnostics docModel client st filePath version).selectionsSet = none
      ∧ (showDiagnostics docModel client st filePath version).marksCreated = []
      ∧ (showDiagnostics docModel client st filePath version).emitted = false
      ∧ (∀ p, (showDiagnostics docModel client st filePath version).state.m_marks p
          = st.m_marks p))
    ∧ (∀ doc, docModel.docs filePath = some doc →
        ¬(((st.m_diagnostics filePath).getD {}).version.getD version = version
            ∧ ((st.m_diagnostics filePath).getD {}).diagnostics ≠ []) →
          (showDiagnostics docModel client st filePath version).selectionsSet = some []
          ∧ (showDiagnostics docModel client st filePath version).marksCreated = []
          ∧ (showDiagnostics docModel client st filePath version).emitted = false
          ∧ (∀ p, (showDiagnostics docModel client st filePath version).state.m_marks p
              = st.m_marks p))
    ∧ (∀ doc, docModel.docs filePath = some doc →
        (((st.m_diagnostics filePath).getD {}).version.getD version = version
          ∧ ((st.m_diagnostics filePath).getD {}).diagnostics ≠ []) →
          (showDiagnostics docModel client st filePath version).selectionsSet
            = some (((st.m_diagnostics filePath).getD {}).diagnostics.map
                (createDiagnosticSelection · doc))
          ∧ (showDiagnostics docModel client st filePath version).marksCreated
            = ((st.m_diagnostics filePath).getD {}).diagnostics.map
                (fun d => createTextMark client d (client.fileBelongsToProject filePath))
          ∧ (showDiagnostics docModel client st filePath version).marksCreated ≠ [])
    ∧ ((showDiagnostics docModel client st filePath version).emitted = true →
        (showDiagnostics docModel client st filePath version).marksCreated ≠ []) := by
  refine ⟨fun h => ?_, fun doc hdoc hcond => ?_, fun doc hdoc hcond => ?_, fun hemit => ?_⟩
  · simp [showDiagnostics, h]
  · simp [showDiagnostics, hdoc, hcond]
  · simp only [showDiagnostics, hdoc]
    rw [if_pos hcond]
    refine ⟨by simp [filter_notNull_map_selection], rfl, ?_⟩
    simp [hcond.2]
  · rcases hd : docModel.docs filePath with _ | doc
    · simp [showDiagnostics, hd] at hemit
    · by_cases hcond : (((st.m_diagnostics filePath).getD {}).version.getD version = version
          ∧ ((st.m_diagnostics filePath).getD {}).diagnostics ≠ [])
      · simp only [showDiagnostics, hd] at *
        rw [if_pos hcond]
        simp [hcond.2]
      · simp [showDiagnostics, hd, hcond] at hemit

theorem showDiagnostics_spec_witness :
    (showDiagnostics ⟨fun _ => some ⟨fun _ => 0⟩⟩
        ⟨"clangd", "id", fun _ => 0, fun _ => false⟩ DMState.empty "f" 3).selectionsSet
      = some [] :=
  ((showDiagnostics_spec ⟨fun _ => some ⟨fun _ => 0⟩⟩
      ⟨"clangd", "id", fun _ => 0, fun _ => false⟩ DMState.empty "f" 3).2.1
    ⟨fun _ => 0⟩ rfl (by simp [DMState.empty])).1

/-- C6: `DiagnosticManager::diagnosticsAt` returns the empty list when no
diagnostics are stored for the path, or when the stored version is present and
differs from the client's current document version for that path; otherwise it
returns exactly those stored diagnostics whose range overlaps the range of the
cursor, in their stored order. -/
theorem diagnosticsAt_spec (client : Client) (st : DMState) (filePath : String)
    (cursorRange : Range) :
    (st.m_diagnostics filePath = none → diagnosticsAt client st filePath cursorRange = [])
    ∧ (∀ entry, st.m_diagnostics filePath = some entry →
        (∀ ver, entry.version = some ver → ver ≠ client.documentVersion filePath →
          diagnosticsAt client st filePath cursorRange = [])
        ∧ (entry.version.getD (client.documentVersion filePath)
              = client.documentVersion filePath →
            diagnosticsAt client st filePath cursorRange
              = entry.diagnostics.filter
                  (fun diagnostic => diagnostic.range.overlaps cursorRange))) := by
  refine ⟨fun h => ?_, fun entry h => ⟨fun ver hver hne => ?_, fun heq => ?_⟩⟩
  · simp [diagnosticsAt, h]
  · have hne' : client.documentVersion filePath ≠ ver := fun hx => hne hx.symm
    simp [diagnosticsAt, h, hver, hne']
  · simp [diagnosticsAt, h, heq]

theorem diagnosticsAt_spec_witness :
    diagnosticsAt ⟨"clangd", "id", fun _ => 1, fun _ => false⟩
        ⟨fun p => if p = "f" then
            some ⟨some 1, [⟨⟨⟨0, 0⟩, ⟨0, 5⟩⟩, none, "m"⟩]⟩ else none,
          fun _ => none⟩ "f" ⟨⟨0, 1⟩, ⟨0, 2⟩⟩
      = [⟨⟨⟨0, 0⟩, ⟨0, 5⟩⟩, none, "m"⟩] := by
  have h := (diagnosticsAt_spec ⟨"clangd", "id", fun _ => 1, fun _ => false⟩
      ⟨fun p => if p = "f" then
          some ⟨some 1, [⟨⟨⟨0, 0⟩, ⟨0, 5⟩⟩, none, "m"⟩]⟩ else none,
        fun _ => none⟩ "f" ⟨⟨0, 1⟩, ⟨0, 2⟩⟩).2
      ⟨some 1, [⟨⟨⟨0, 0⟩, ⟨0, 5⟩⟩, none, "m"⟩]⟩ (by simp)
  simpa using h.2 (by simp)

end LanguageClient
